import Mathlib

/-!
Shallow embedding of the handler-classification, layer-merging and
environment-configuration logic of the serverless-plugin-datadog sources
(`src/layer.ts`, `src/util.ts`, `src/env.ts`), together with theorems
checking the natural-language specification against it.

Filesystem existence probes are modelled as an explicit predicate
`fsEx : String → Bool` passed to the classifier; JS objects with optional
fields become structures with `Option` fields; JS in-place mutation of the
handler descriptors becomes a function returning the updated records.
-/

/-- Runtime categories, from the `RuntimeType` enum in `src/layer.ts`. -/
inductive RuntimeType where
  | NODE
  | NODE_TS
  | NODE_ES6
  | PYTHON
  | UNSUPPORTED
deriving DecidableEq, Repr

/-- The fields of a serverless `FunctionDefinition` the plugin reads or
writes: the handler reference string, the optional declared runtime name,
and the optional list of layer identifiers. -/
structure FunctionDefinition where
  handler : String
  runtime : Option String
  layers : Option (List String)
deriving DecidableEq, Repr

/-- The `HandlerInfo` record of `src/layer.ts`. -/
structure HandlerInfo where
  name : String
  type : RuntimeType
  handler : FunctionDefinition
  runtime : Option String
deriving DecidableEq, Repr

/-- The `LayerJSON` shape of `src/layer.ts`: a region-keyed mapping to a
runtime-keyed mapping of layer identifiers; absent entries are `none`. -/
structure LayerJSON where
  regions : String → Option (String → Option String)

/-- The fields of a serverless `Service` the classifier reads: the ordered
function entries and the optional plugin list. -/
structure Service where
  functions : List (String × FunctionDefinition)
  plugins : Option (List String)

/-- The `runtimeLookup` table of `src/layer.ts`; keys absent from the JS
object map to `none`. -/
def runtimeLookup : String → Option RuntimeType
  | "nodejs10.x" => some RuntimeType.NODE
  | "nodejs12.x" => some RuntimeType.NODE
  | "nodejs8.10" => some RuntimeType.NODE
  | "python2.7" => some RuntimeType.PYTHON
  | "python3.6" => some RuntimeType.PYTHON
  | "python3.7" => some RuntimeType.PYTHON
  | "python3.8" => some RuntimeType.PYTHON
  | _ => none

/-- The result shape of `getHandlerPath` in `src/util.ts`. -/
structure HandlerPath where
  method : String
  filename : String
deriving DecidableEq, Repr

/-- Splits a character list at every occurrence of the separator
character: a structural model of the JS `String.prototype.split` with a
one-character separator, as used by `getHandlerPath`. -/
def splitChars (sep : Char) : List Char → List (List Char)
  | [] => [[]]
  | c :: cs =>
    match splitChars sep cs with
    | [] => [[]]
    | p :: ps => if c = sep then [] :: p :: ps else (c :: p) :: ps

/-- String wrapper for `splitChars`, modelling `handlerfile.split(".")`. -/
def splitOnDot (s : String) : List String :=
  (splitChars ('.') s.toList).map (fun cs => String.mk cs)

/-- The `getHandlerPath` function of `src/util.ts`, on the handler
reference string: split on dots; fewer than two parts means malformed
(returns `none`); otherwise the last part is the method and the rest,
re-joined with dots, the filename. -/
def getHandlerPath (handlerfile : String) : Option HandlerPath :=
  let parts := splitOnDot handlerfile
  if parts.length < 2 then
    none
  else
    some { method := parts.getLast!, filename := String.intercalate (".") parts.dropLast }

/-- The `hasWebpackPlugin` helper of `src/layer.ts`. -/
def hasWebpackPlugin (service : Service) : Bool :=
  match service.plugins with
  | none => false
  | some plugins => (plugins.find? (fun plugin => plugin == "serverless-webpack")).isSome

/-- Effective runtime resolution at the top of the `map` body of
`findHandlers`: the function's own declared runtime, else the default. -/
def effectiveRuntime (handler : FunctionDefinition) (defaultRuntime : Option String) :
    Option String :=
  match handler.runtime with
  | some r => some r
  | none => defaultRuntime

/-- The body of the `map` inside `findHandlers` of `src/layer.ts`, for one
`(name, handler)` entry; `none` models the JS `return;` that drops the
entry (it is removed by the trailing `filter`). -/
def classifyEntry (fsEx : String → Bool) (service : Service) (defaultRuntime : Option String)
    (defaultNodeRuntime : Option RuntimeType) (entry : String × FunctionDefinition) :
    Option HandlerInfo :=
  let name := entry.1
  let handler := entry.2
  match effectiveRuntime handler defaultRuntime with
  | none => some { name, type := RuntimeType.UNSUPPORTED, handler, runtime := none }
  | some r =>
    match runtimeLookup r with
    | none => some { name, type := RuntimeType.UNSUPPORTED, handler, runtime := some r }
    | some t =>
      if t = RuntimeType.NODE then
        match getHandlerPath handler.handler with
        | none => none
        | some handlerPath =>
          match defaultNodeRuntime with
          | some dnr => some { name, type := dnr, handler, runtime := some r }
          | none =>
            let es6 := fsEx ("./" ++ handlerPath.filename ++ ".es.js") ||
              fsEx ("./" ++ handlerPath.filename ++ ".mjs") || hasWebpackPlugin service
            let t1 := if es6 then RuntimeType.NODE_ES6 else RuntimeType.NODE
            let t2 := if fsEx ("./" ++ handlerPath.filename ++ ".ts") then
              RuntimeType.NODE_TS else t1
            some { name, type := t2, handler, runtime := some r }
      else
        some { name, type := t, handler, runtime := some r }

/-- The `findHandlers` function of `src/layer.ts`: classify every function
entry of the service, dropping the entries the classifier excludes. -/
def findHandlers (fsEx : String → Bool) (service : Service) (defaultRuntime : Option String)
    (defaultNodeRuntime : Option RuntimeType) : List HandlerInfo :=
  service.functions.filterMap (classifyEntry fsEx service defaultRuntime defaultNodeRuntime)

/-- The body of the `for` loop of `applyLayers` in `src/layer.ts`, for one
handler record, given the region's runtime table: skip unsupported
records, records with no runtime and runtimes with no layer entry;
otherwise append the layer identifier unless already present. -/
def applyToHandler (regionRuntimes : String → Option String) (h : HandlerInfo) : HandlerInfo :=
  if h.type = RuntimeType.UNSUPPORTED then h
  else
    match h.runtime with
    | none => h
    | some runtime =>
      match regionRuntimes runtime with
      | none => h
      | some layerARN =>
        let currentLayers := match h.handler.layers with
          | none => []
          | some l => l
        let newLayers := if layerARN ∈ currentLayers then currentLayers
          else currentLayers ++ [layerARN]
        { h with handler := { h.handler with layers := some newLayers } }

/-- The `applyLayers` function of `src/layer.ts`: no-op when the region is
absent from the table, otherwise update every handler record in place. -/
def applyLayers (region : String) (handlers : List HandlerInfo) (layers : LayerJSON) :
    List HandlerInfo :=
  match layers.regions region with
  | none => handlers
  | some regionRuntimes => handlers.map (applyToHandler regionRuntimes)

/-- Values a telemetry environment variable can take in `src/env.ts`:
the API keys, site and log level are strings, the log-forwarding flag is
the boolean `config.flushMetricsToLogs`. -/
inductive EnvValue where
  | str (s : String)
  | flag (b : Bool)
deriving DecidableEq, Repr

/-- A provider environment object: a mapping from variable names to
values, `none` for absent keys. -/
def Env : Type := String → Option EnvValue

/-- The fields of the `Configuration` interface of `src/env.ts` that
`setEnvConfiguration` reads. -/
structure Configuration where
  apiKey : Option String
  apiKMSKey : Option String
  site : String
  logLevel : String
  flushMetricsToLogs : Bool

/-- Assignment of one environment key, modelling
`environment[envVar] = value`. -/
def envSet (e : Env) (key : String) (v : EnvValue) : Env :=
  fun k => if k = key then some v else e k

/-- One guarded assignment of `setEnvConfiguration`: write the value only
when the key is not yet defined. -/
def condSet (e : Env) (key : String) (v : EnvValue) : Env :=
  if e key = none then envSet e key v else e

/-- The `setEnvConfiguration` function of `src/env.ts`: starting from the
provider environment (an empty object when absent), fill in each of the
five telemetry variables when it is not already defined; the two API keys
are only written when configured. -/
def setEnvConfiguration (config : Configuration) (environment0 : Option Env) : Env :=
  let environment : Env := environment0.getD (fun _ => none)
  let e1 := match config.apiKey with
    | some k => condSet environment ("DD_API_KEY") (EnvValue.str k)
    | none => environment
  let e2 := match config.apiKMSKey with
    | some k => condSet e1 ("DD_KMS_API_KEY") (EnvValue.str k)
    | none => e1
  let e3 := condSet e2 ("DD_SITE") (EnvValue.str config.site)
  let e4 := condSet e3 ("DD_LOG_LEVEL") (EnvValue.str config.logLevel)
  condSet e4 ("DD_FLUSH_TO_LOG") (EnvValue.flag config.flushMetricsToLogs)

/-- A handler record whose descriptor already carries a duplicated layer
list, used to examine the merge-pass duplicate-freedom invariant. -/
def dupHandler : HandlerInfo :=
  { name := "func-a", type := RuntimeType.NODE,
    handler :=
      { handler := "myfile.handler", runtime := some "nodejs10.x",
        layers := some ["node:1", "node:1"] },
    runtime := some "nodejs10.x" }

/-- A layer table mapping the nodejs10.x runtime of us-east-1 to the
identifier already present (twice) in `dupHandler`. -/
def dupLayerJSON : LayerJSON :=
  { regions := fun region =>
      if region = "us-east-1" then
        some (fun runtime => if runtime = "nodejs10.x" then some "node:1" else none)
      else none }

/-- A handler record with a duplicate-free layer list, for witnesses. -/
def cleanHandler : HandlerInfo :=
  { name := "func-a", type := RuntimeType.NODE,
    handler :=
      { handler := "myfile.handler", runtime := some "nodejs10.x",
        layers := some ["node:1"] },
    runtime := some "nodejs10.x" }

/-- A layer table mapping nodejs10.x in us-east-1 to a fresh identifier. -/
def freshLayerJSON : LayerJSON :=
  { regions := fun region =>
      if region = "us-east-1" then
        some (fun runtime => if runtime = "nodejs10.x" then some "node:2" else none)
      else none }

/-- A function declaring a runtime absent from the runtime table. -/
def goFunction : FunctionDefinition :=
  { handler := "myfile.handler", runtime := some "go1.10", layers := none }

/-- A service holding only `goFunction`. -/
def goService : Service :=
  { functions := [("func-b", goFunction)], plugins := none }

/-- A node function whose handler reference has no method suffix. -/
def nodeBadFunction : FunctionDefinition :=
  { handler := "myfile", runtime := some "nodejs10.x", layers := none }

/-- A service holding only `nodeBadFunction`. -/
def nodeBadService : Service :=
  { functions := [("func-a", nodeBadFunction)], plugins := none }

/-- A python function whose handler reference has no method suffix. -/
def pythonBadFunction : FunctionDefinition :=
  { handler := "myfile", runtime := some "python2.7", layers := none }

/-- A service holding only `pythonBadFunction`. -/
def pythonBadService : Service :=
  { functions := [("func-c", pythonBadFunction)], plugins := none }

/-- A plain node function with a well-formed handler reference. -/
def nodeFunction : FunctionDefinition :=
  { handler := "mylambda.handler", runtime := some "nodejs8.10", layers := none }

/-- A service holding only `nodeFunction`, with no plugin list. -/
def nodeService : Service :=
  { functions := [("func-a", nodeFunction)], plugins := none }

/-- A service holding `nodeFunction` with serverless-webpack enabled. -/
def webpackService : Service :=
  { functions := [("func-a", nodeFunction)],
    plugins := some ["serverless-plugin-datadog", "serverless-webpack"] }

/-- A filesystem on which both `mylambda.ts` and `mylambda.es.js`
exist. -/
def fsBoth : String → Bool :=
  fun s => s == "./mylambda.ts" || s == "./mylambda.es.js"

/-- A filesystem on which no file exists. -/
def fsEmpty : String → Bool := fun _ => false

/-- A configuration with an API key, for the environment witnesses. -/
def cfg0 : Configuration :=
  { apiKey := some "abc", apiKMSKey := none, site := "datadoghq.com",
    logLevel := "info", flushMetricsToLogs := true }

/-- A provider environment that already defines DD_SITE. -/
def env0c : Env :=
  fun k => if k = "DD_SITE" then some (EnvValue.str "datadoghq.eu") else none

section MergerLemmas

/-- When a handler record is unsupported, has no runtime, or its runtime
has no layer entry in the region table, the merge loop body leaves it
untouched. -/
lemma applyToHandler_of_skip (rt : String → Option String) (h : HandlerInfo)
    (hskip : h.type = RuntimeType.UNSUPPORTED ∨ h.runtime = none ∨
      ∃ r, h.runtime = some r ∧ rt r = none) :
    applyToHandler rt h = h := by
  rcases hskip with ht | hr | ⟨r, hr, ha⟩
  · simp [applyToHandler, ht]
  · simp [applyToHandler, hr]
  · simp [applyToHandler, hr, ha]

/-- When the region table resolves a layer identifier for the record's
runtime and the record is supported, the merge loop body writes back the
current layer list with the identifier appended unless already present. -/
lemma applyToHandler_of_hit (rt : String → Option String) (h : HandlerInfo) (r arn : String)
    (ht : ¬ h.type = RuntimeType.UNSUPPORTED) (hr : h.runtime = some r)
    (ha : rt r = some arn) :
    applyToHandler rt h =
      { h with
        handler :=
          { h.handler with
            layers :=
              some (if arn ∈ h.handler.layers.getD [] then h.handler.layers.getD []
                else h.handler.layers.getD [] ++ [arn]) } } := by
  cases hl : h.handler.layers <;>
    simp [applyToHandler, ht, hr, ha, hl]

/-- When the resolved layer identifier is already a member of the present
layer list, the merge loop body is the identity on the record. -/
lemma applyToHandler_of_mem (rt : String → Option String) (h : HandlerInfo) (r arn : String)
    (l : List String)
    (ht : ¬ h.type = RuntimeType.UNSUPPORTED) (hr : h.runtime = some r)
    (ha : rt r = some arn) (hl : h.handler.layers = some l) (hmem : arn ∈ l) :
    applyToHandler rt h = h := by
  have hcur : h.handler.layers.getD [] = l := by rw [hl]; rfl
  rw [applyToHandler_of_hit rt h r arn ht hr ha, hcur, if_pos hmem, ← hl]

/-- The merge loop body is idempotent on every handler record. -/
lemma applyToHandler_idem (rt : String → Option String) (h : HandlerInfo) :
    applyToHandler rt (applyToHandler rt h) = applyToHandler rt h := by
  by_cases ht : h.type = RuntimeType.UNSUPPORTED
  · rw [applyToHandler_of_skip rt h (Or.inl ht), applyToHandler_of_skip rt h (Or.inl ht)]
  cases hr : h.runtime with
  | none =>
    rw [applyToHandler_of_skip rt h (Or.inr (Or.inl hr)),
      applyToHandler_of_skip rt h (Or.inr (Or.inl hr))]
  | some r =>
    cases ha : rt r with
    | none =>
      rw [applyToHandler_of_skip rt h (Or.inr (Or.inr ⟨r, hr, ha⟩)),
        applyToHandler_of_skip rt h (Or.inr (Or.inr ⟨r, hr, ha⟩))]
    | some arn =>
      rw [applyToHandler_of_hit rt h r arn ht hr ha]
      refine applyToHandler_of_mem rt _ r arn _ ht hr ha rfl ?_
      by_cases hmem : arn ∈ h.handler.layers.getD [] <;> simp [hmem]

end MergerLemmas

/-- C2: for a supported handler record with a runtime that the region's
layer table resolves, `applyLayers` writes back the layer list (empty when
the field was absent) with the resolved identifier appended exactly when
it was not already a member, and unchanged otherwise. -/
theorem applyLayers_appends_iff_absent
    (region : String) (handlers : List HandlerInfo) (L : LayerJSON)
    (rt : String → Option String) (i : Nat) (h : HandlerInfo) (r arn : String)
    (hreg : L.regions region = some rt)
    (hi : handlers[i]? = some h)
    (ht : ¬ h.type = RuntimeType.UNSUPPORTED)
    (hr : h.runtime = some r)
    (harn : rt r = some arn) :
    ∃ h', (applyLayers region handlers L)[i]? = some h' ∧
      h'.handler.layers =
        some (if arn ∈ h.handler.layers.getD [] then h.handler.layers.getD []
          else h.handler.layers.getD [] ++ [arn]) := by
  refine ⟨applyToHandler rt h, ?_, ?_⟩
  · simp [applyLayers, hreg, List.getElem?_map, hi]
  · rw [applyToHandler_of_hit rt h r arn ht hr harn]

/-- Witness for C2: the fresh identifier node:2 is appended to the list
that held only node:1. -/
theorem applyLayers_appends_iff_absent_witness :
    ∃ h', (applyLayers ("us-east-1") [cleanHandler] freshLayerJSON)[0]? = some h' ∧
      h'.handler.layers =
        some (if ("node:2" : String) ∈ (cleanHandler.handler.layers.getD []) then
          cleanHandler.handler.layers.getD []
        else cleanHandler.handler.layers.getD [] ++ ["node:2"]) :=
  applyLayers_appends_iff_absent ("us-east-1") [cleanHandler] freshLayerJSON
    (fun runtime => if runtime = "nodejs10.x" then some "node:2" else none) 0 cleanHandler
    ("nodejs10.x") ("node:2") rfl (by decide) (by decide) (by decide) rfl

/-- C4: applying the same region and layer table a second time changes no
handler record further. -/
theorem applyLayers_idempotent (region : String) (handlers : List HandlerInfo)
    (L : LayerJSON) :
    applyLayers region (applyLayers region handlers L) L = applyLayers region handlers L := by
  cases hreg : L.regions region with
  | none => simp [applyLayers, hreg]
  | some rt =>
    simp only [applyLayers, hreg, List.map_map]
    exact List.map_congr_left (fun h _ => applyToHandler_idem rt h)

/-- C5: when the region is absent from the table, the record is
unsupported, its runtime is undefined, or the region table has no entry
for its runtime, `applyLayers` leaves the record (layer list included, or
its absence) unchanged. -/
theorem applyLayers_skip_frame
    (region : String) (handlers : List HandlerInfo) (L : LayerJSON)
    (i : Nat) (h : HandlerInfo)
    (hi : handlers[i]? = some h)
    (hskip : L.regions region = none ∨ h.type = RuntimeType.UNSUPPORTED ∨
      h.runtime = none ∨
      ∃ rt r, L.regions region = some rt ∧ h.runtime = some r ∧ rt r = none) :
    (applyLayers region handlers L)[i]? = some h := by
  rcases hskip with hreg | ht | hr | ⟨rt, r, hreg, hr, ha⟩
  · simp [applyLayers, hreg, hi]
  · cases hreg : L.regions region with
    | none => simp [applyLayers, hreg, hi]
    | some rt =>
      simp [applyLayers, hreg, List.getElem?_map, hi,
        applyToHandler_of_skip rt h (Or.inl ht)]
  · cases hreg : L.regions region with
    | none => simp [applyLayers, hreg, hi]
    | some rt =>
      simp [applyLayers, hreg, List.getElem?_map, hi,
        applyToHandler_of_skip rt h (Or.inr (Or.inl hr))]
  · simp [applyLayers, hreg, List.getElem?_map, hi,
      applyToHandler_of_skip rt h (Or.inr (Or.inr ⟨r, hr, ha⟩))]

/-- C3 (counterexample): a merge pass does not deduplicate a layer list
that already held duplicates: the record `dupHandler`, whose list is
`["node:1", "node:1"]`, still has that duplicated list after a pass whose
table resolves node:1 for its runtime. -/
theorem applyLayers_nodup_cex :
    (applyLayers ("us-east-1") [dupHandler] dupLayerJSON).map
        (fun h => h.handler.layers) = [some ["node:1", "node:1"]] ∧
      ¬ (["node:1", "node:1"] : List String).Nodup := by
  constructor
  · decide
  · decide

/-- C3 (amended): a merge pass preserves duplicate-freedom: a handler
record whose layer list (empty when absent) holds no duplicates still
holds no duplicates after `applyLayers`. -/
theorem applyLayers_preserves_nodup
    (region : String) (handlers : List HandlerInfo) (L : LayerJSON)
    (i : Nat) (h : HandlerInfo)
    (hi : handlers[i]? = some h)
    (hnd : (h.handler.layers.getD []).Nodup) :
    ∃ h', (applyLayers region handlers L)[i]? = some h' ∧
      (h'.handler.layers.getD []).Nodup := by
  cases hreg : L.regions region with
  | none => exact ⟨h, by simp [applyLayers, hreg, hi], hnd⟩
  | some rt =>
    refine ⟨applyToHandler rt h, by simp [applyLayers, hreg, List.getElem?_map, hi], ?_⟩
    by_cases ht : h.type = RuntimeType.UNSUPPORTED
    · rw [applyToHandler_of_skip rt h (Or.inl ht)]; exact hnd
    cases hr : h.runtime with
    | none => rw [applyToHandler_of_skip rt h (Or.inr (Or.inl hr))]; exact hnd
    | some r =>
      cases ha : rt r with
      | none => rw [applyToHandler_of_skip rt h (Or.inr (Or.inr ⟨r, hr, ha⟩))]; exact hnd
      | some arn =>
        rw [applyToHandler_of_hit rt h r arn ht hr ha]
        by_cases hmem : arn ∈ h.handler.layers.getD []
        · simpa [hmem] using hnd
        · simp only [if_neg hmem, Option.getD_some]
          simp only [List.nodup_append, List.nodup_cons, List.not_mem_nil, not_false_iff,
            List.nodup_nil, and_true, List.disjoint_singleton]
          exact ⟨hnd, trivial, hmem⟩

/-- Witness for C3 (amended): a duplicate-free list stays duplicate-free
through a merge pass that appends a fresh identifier. -/
theorem applyLayers_preserves_nodup_witness :
    ∃ h', (applyLayers ("us-east-1") [cleanHandler] freshLayerJSON)[0]? = some h' ∧
      (h'.handler.layers.getD []).Nodup :=
  applyLayers_preserves_nodup ("us-east-1") [cleanHandler] freshLayerJSON 0 cleanHandler
    (by decide) (by decide)

/-- Witness for C5: a handler whose runtime has no entry in the region
table passes through unchanged. -/
theorem applyLayers_skip_frame_witness :
    (applyLayers ("us-east-2") [cleanHandler] freshLayerJSON)[0]? = some cleanHandler :=
  applyLayers_skip_frame ("us-east-2") [cleanHandler] freshLayerJSON 0 cleanHandler
    (by decide) (Or.inl rfl)

/-- Every record the classifier emits carries the name and the descriptor
of the entry it came from. -/
lemma classifyEntry_fields (fsEx : String → Bool) (service : Service)
    (dR : Option String) (dNR : Option RuntimeType) (e : String × FunctionDefinition)
    (info : HandlerInfo) (hc : classifyEntry fsEx service dR dNR e = some info) :
    info.name = e.1 ∧ info.handler = e.2 := by
  simp only [classifyEntry] at hc
  split at hc
  · injection hc with hc
    subst hc
    exact ⟨rfl, rfl⟩
  split at hc
  · injection hc with hc
    subst hc
    exact ⟨rfl, rfl⟩
  split at hc
  · split at hc
    · exact absurd hc (by simp)
    split at hc
    · injection hc with hc
      subst hc
      exact ⟨rfl, rfl⟩
    · injection hc with hc
      subst hc
      exact ⟨rfl, rfl⟩
  · injection hc with hc
    subst hc
    exact ⟨rfl, rfl⟩

/-- C1: an entry whose effective runtime is absent or not a key of the
runtime table is classified Unsupported and retained in the classifier
output, with the effective runtime name recorded as-is. -/
theorem findHandlers_unsupported_retained
    (fsEx : String → Bool) (service : Service) (dR : Option String)
    (dNR : Option RuntimeType) (name : String) (fd : FunctionDefinition)
    (hmem : (name, fd) ∈ service.functions)
    (heff : effectiveRuntime fd dR = none ∨
      ∃ r, effectiveRuntime fd dR = some r ∧ runtimeLookup r = none) :
    ({ name := name, type := RuntimeType.UNSUPPORTED, handler := fd,
        runtime := effectiveRuntime fd dR } : HandlerInfo) ∈
      findHandlers fsEx service dR dNR := by
  rcases heff with h0 | ⟨r, hr, hl⟩
  · exact List.mem_filterMap.mpr ⟨(name, fd), hmem, by simp [classifyEntry, h0]⟩
  · exact List.mem_filterMap.mpr ⟨(name, fd), hmem, by simp [classifyEntry, hr, hl]⟩

/-- Witness for C1: the go1.10 function is retained as Unsupported. -/
theorem findHandlers_unsupported_retained_witness :
    ({ name := "func-b", type := RuntimeType.UNSUPPORTED, handler := goFunction,
        runtime := effectiveRuntime goFunction none } : HandlerInfo) ∈
      findHandlers fsEmpty goService none none :=
  findHandlers_unsupported_retained fsEmpty goService none none ("func-b") goFunction
    (by decide) (Or.inr ⟨"go1.10", by decide, by decide⟩)

/-- C6: a NODE-classified entry whose handler reference has no
dot-separated method suffix is silently excluded: the classifier yields
nothing for the entry, and no record with that entry's name and
descriptor appears in the output. -/
theorem findHandlers_drops_malformed_node
    (fsEx : String → Bool) (service : Service) (dR : Option String)
    (dNR : Option RuntimeType) (name : String) (fd : FunctionDefinition)
    (hrt : ∃ r, effectiveRuntime fd dR = some r ∧ runtimeLookup r = some RuntimeType.NODE)
    (hmal : getHandlerPath fd.handler = none) :
    classifyEntry fsEx service dR dNR (name, fd) = none ∧
      ∀ info ∈ findHandlers fsEx service dR dNR,
        ¬ (info.name = name ∧ info.handler = fd) := by
  obtain ⟨r, hr, hl⟩ := hrt
  have hnone : classifyEntry fsEx service dR dNR (name, fd) = none := by
    simp [classifyEntry, hr, hl, hmal]
  refine ⟨hnone, ?_⟩
  rintro info hinfo ⟨hn, hh⟩
  obtain ⟨⟨n', fd'⟩, hmem', hc'⟩ := List.mem_filterMap.mp hinfo
  obtain ⟨hn', hh'⟩ := classifyEntry_fields fsEx service dR dNR (n', fd') info hc'
  have h1 : n' = name := by rw [← hn]; exact hn'.symm
  have h2 : fd' = fd := by rw [← hh]; exact hh'.symm
  subst h1
  subst h2
  rw [hnone] at hc'
  exact Option.noConfusion hc'

/-- Witness for C6: the nodejs10.x function with handler reference
`"myfile"` is dropped. -/
theorem findHandlers_drops_malformed_node_witness :
    classifyEntry fsEmpty nodeBadService none none ("func-a", nodeBadFunction) = none ∧
      ∀ info ∈ findHandlers fsEmpty nodeBadService none none,
        ¬ (info.name = "func-a" ∧ info.handler = nodeBadFunction) :=
  findHandlers_drops_malformed_node fsEmpty nodeBadService none none ("func-a")
    nodeBadFunction ⟨"nodejs10.x", by decide, by decide⟩ (by decide)

/-- C10: the malformed-handler drop only concerns NODE entries: an entry
classified PYTHON, or Unsupported because its effective runtime is absent
or unrecognized, is retained whatever its handler reference looks like. -/
theorem findHandlers_retains_non_node
    (fsEx : String → Bool) (service : Service) (dR : Option String)
    (dNR : Option RuntimeType) (name : String) (fd : FunctionDefinition)
    (hmem : (name, fd) ∈ service.functions)
    (hcat : effectiveRuntime fd dR = none ∨
      (∃ r, effectiveRuntime fd dR = some r ∧ runtimeLookup r = none) ∨
      (∃ r, effectiveRuntime fd dR = some r ∧
        runtimeLookup r = some RuntimeType.PYTHON)) :
    ∃ info ∈ findHandlers fsEx service dR dNR,
      info.name = name ∧ info.handler = fd := by
  rcases hcat with h0 | ⟨r, hr, hl⟩ | ⟨r, hr, hl⟩
  · exact ⟨{ name := name, type := RuntimeType.UNSUPPORTED, handler := fd, runtime := none },
      List.mem_filterMap.mpr ⟨(name, fd), hmem, by simp [classifyEntry, h0]⟩, rfl, rfl⟩
  · exact ⟨{ name := name, type := RuntimeType.UNSUPPORTED, handler := fd, runtime := some r },
      List.mem_filterMap.mpr ⟨(name, fd), hmem, by simp [classifyEntry, hr, hl]⟩, rfl, rfl⟩
  · exact ⟨{ name := name, type := RuntimeType.PYTHON, handler := fd, runtime := some r },
      List.mem_filterMap.mpr ⟨(name, fd), hmem, by simp [classifyEntry, hr, hl]⟩, rfl, rfl⟩

/-- Witness for C10: the python2.7 function whose handler reference has
no method suffix is still retained. -/
theorem findHandlers_retains_non_node_witness :
    ∃ info ∈ findHandlers fsEmpty pythonBadService none none,
      info.name = "func-c" ∧ info.handler = pythonBadFunction :=
  findHandlers_retains_non_node fsEmpty pythonBadService none none ("func-c")
    pythonBadFunction (by decide) (Or.inr (Or.inr ⟨"python2.7", by decide, by decide⟩))

/-- C7: with no forced node dialect, a NODE entry whose sibling `.ts` file
exists is classified NODE_TS, whatever the ES6-indicating probes and the
plugin list say. -/
theorem classify_ts_wins
    (fsEx : String → Bool) (service : Service) (dR : Option String)
    (name : String) (fd : FunctionDefinition) (r : String) (hp : HandlerPath)
    (heff : effectiveRuntime fd dR = some r)
    (hlk : runtimeLookup r = some RuntimeType.NODE)
    (hpath : getHandlerPath fd.handler = some hp)
    (hts : fsEx ("./" ++ hp.filename ++ ".ts") = true) :
    classifyEntry fsEx service dR none (name, fd) =
      some
        { name := name, type := RuntimeType.NODE_TS, handler := fd,
          runtime := some r } := by
  simp [classifyEntry, heff, hlk, hpath, hts]

/-- Witness for C7: with both `mylambda.ts` and `mylambda.es.js` present,
the entry is classified NODE_TS. -/
theorem classify_ts_wins_witness :
    classifyEntry fsBoth nodeService none none ("func-a", nodeFunction) =
      some
        { name := "func-a", type := RuntimeType.NODE_TS, handler := nodeFunction,
          runtime := some "nodejs8.10" } :=
  classify_ts_wins fsBoth nodeService none ("func-a") nodeFunction ("nodejs8.10")
    { method := "handler", filename := "mylambda" }
    (by decide) (by decide) (by decide) (by decide)

/-- C8: with no forced node dialect and no sibling dialect files, a NODE
entry of a service whose plugin list contains "serverless-webpack" is
classified NODE_ES6. -/
theorem classify_webpack_es6
    (fsEx : String → Bool) (service : Service) (dR : Option String)
    (name : String) (fd : FunctionDefinition) (r : String) (hp : HandlerPath)
    (heff : effectiveRuntime fd dR = some r)
    (hlk : runtimeLookup r = some RuntimeType.NODE)
    (hpath : getHandlerPath fd.handler = some hp)
    (hes : fsEx ("./" ++ hp.filename ++ ".es.js") = false)
    (hmjs : fsEx ("./" ++ hp.filename ++ ".mjs") = false)
    (hts : fsEx ("./" ++ hp.filename ++ ".ts") = false)
    (hwp : ∃ ps, service.plugins = some ps ∧ "serverless-webpack" ∈ ps) :
    classifyEntry fsEx service dR none (name, fd) =
      some
        { name := name, type := RuntimeType.NODE_ES6, handler := fd,
          runtime := some r } := by
  obtain ⟨ps, hps, hpl⟩ := hwp
  have hweb : hasWebpackPlugin service = true := by
    simp only [hasWebpackPlugin, hps, List.find?_isSome]
    exact ⟨"serverless-webpack", hpl, by simp⟩
  simp [classifyEntry, heff, hlk, hpath, hes, hmjs, hts, hweb]

/-- Witness for C8: with no dialect files, webpackService's node function
is classified NODE_ES6. -/
theorem classify_webpack_es6_witness :
    classifyEntry fsEmpty webpackService none none ("func-a", nodeFunction) =
      some
        { name := "func-a", type := RuntimeType.NODE_ES6, handler := nodeFunction,
          runtime := some "nodejs8.10" } :=
  classify_webpack_es6 fsEmpty webpackService none ("func-a") nodeFunction ("nodejs8.10")
    { method := "handler", filename := "mylambda" }
    (by decide) (by decide) (by decide) (by decide) (by decide) (by decide)
    ⟨["serverless-plugin-datadog", "serverless-webpack"], rfl, by decide⟩

/-- Assigning one key leaves every other key unchanged. -/
lemma envSet_ne (e : Env) (key : String) (v : EnvValue) (k : String) (h : ¬ k = key) :
    envSet e key v k = e k := by
  simp [envSet, h]

/-- A guarded assignment leaves every other key unchanged. -/
lemma condSet_ne (e : Env) (key : String) (v : EnvValue) (k : String) (h : ¬ k = key) :
    condSet e key v k = e k := by
  unfold condSet
  split
  · exact envSet_ne e key v k h
  · rfl

/-- A guarded assignment never overwrites a key that already holds a
value. -/
lemma condSet_keeps (e : Env) (key : String) (v : EnvValue) (k : String) (w : EnvValue)
    (hw : e k = some w) : condSet e key v k = some w := by
  by_cases hk : k = key
  · subst hk
    simp [condSet, hw]
  · rw [condSet_ne e key v k hk]
    exact hw

/-- C9: `setEnvConfiguration` only fills in absent keys: a key outside the
five telemetry variables is never added, changed or removed, and each of
the five keeps any value it already held on the provider environment. -/
theorem setEnvConfiguration_frame (config : Configuration) (env0 : Option Env) (k : String) :
    (¬ (k = "DD_API_KEY" ∨ k = "DD_KMS_API_KEY" ∨ k = "DD_SITE" ∨ k = "DD_LOG_LEVEL" ∨
        k = "DD_FLUSH_TO_LOG") →
      setEnvConfiguration config env0 k = (env0.getD (fun _ => none)) k) ∧
    (∀ v, (env0.getD (fun _ => none)) k = some v →
      setEnvConfiguration config env0 k = some v) := by
  constructor
  · intro hk
    push_neg at hk
    obtain ⟨h1, h2, h3, h4, h5⟩ := hk
    simp only [setEnvConfiguration]
    rw [condSet_ne _ _ _ _ h5, condSet_ne _ _ _ _ h4, condSet_ne _ _ _ _ h3]
    cases config.apiKey <;> cases config.apiKMSKey <;>
      simp only [] <;>
      first
        | rfl
        | rw [condSet_ne _ _ _ _ h2, condSet_ne _ _ _ _ h1]
        | rw [condSet_ne _ _ _ _ h2]
        | rw [condSet_ne _ _ _ _ h1]
  · intro v hv
    simp only [setEnvConfiguration]
    apply condSet_keeps
    apply condSet_keeps
    apply condSet_keeps
    cases config.apiKMSKey <;> simp only []
    · cases config.apiKey <;> simp only []
      · exact hv
      · exact condSet_keeps _ _ _ _ _ hv
    · apply condSet_keeps
      cases config.apiKey <;> simp only []
      · exact hv
      · exact condSet_keeps _ _ _ _ _ hv

/-- Witness for C9: with DD_SITE already set to datadoghq.eu, the key is
kept, and a foreign key stays absent. -/
theorem setEnvConfiguration_frame_witness :
    setEnvConfiguration cfg0 (some env0c) ("OTHER_KEY") =
        ((some env0c).getD (fun _ => none)) ("OTHER_KEY") ∧
      setEnvConfiguration cfg0 (some env0c) ("DD_SITE") =
        some (EnvValue.str "datadoghq.eu") :=
  ⟨(setEnvConfiguration_frame cfg0 (some env0c) ("OTHER_KEY")).1 (by decide),
    (setEnvConfiguration_frame cfg0 (some env0c) ("DD_SITE")).2
      (EnvValue.str "datadoghq.eu") rfl⟩
